import Mathlib

/-!
Verification of the MoneyMinder serverless backend (src/functions/transactions.py,
src/functions/analytics.py, src/functions/budgets.py).

Shallow embedding conventions:
* Python `decimal.Decimal` amounts and limits are modelled as `ℚ` (exact decimal
  arithmetic; every operation the code performs on them — addition, subtraction,
  comparison, and division in the cases the theorems touch — is exact).
* DynamoDB tables are modelled as lists of records; `put_item` replaces the record
  with the same key; queries are list filters.
* Date strings (`YYYY-MM-DD`) are compared lexicographically on their characters,
  exactly as DynamoDB compares string sort keys; `begins_with` is a character-list
  test.
* Side effects (stored items, attempted notification emails, whether an exception
  propagates to the caller) are returned as explicit data.
-/

namespace MoneyMinder

/-- Lexicographic comparison of character lists by code point, the order DynamoDB
uses for string range keys. -/
def charsLe : List Char → List Char → Bool
  | [], _ => true
  | _ :: _, [] => false
  | a :: as, b :: bs =>
    if a.val < b.val then true
    else if b.val < a.val then false
    else charsLe as bs

/-- String `<=` as DynamoDB evaluates `date >= :start` / `date <= :end`. -/
def strLe (a b : String) : Bool := charsLe a.data b.data

/-- Character-list version of DynamoDB `begins_with`: does `s` start with `p`? -/
def charsStart : List Char → List Char → Bool
  | _, [] => true
  | [], _ :: _ => false
  | a :: as, b :: bs => (a.val == b.val) && charsStart as bs

/-- DynamoDB `begins_with(#dt, :month)` on date strings. -/
def strStarts (s p : String) : Bool := charsStart s.data p.data

/-- A transaction record as built by `create_transaction`
(src/functions/transactions.py lines 47-56). -/
structure Transaction where
  userId : String
  transactionId : String
  amount : ℚ
  category : String
  description : String
  date : String
  createdAt : String
  paymentMethod : String
deriving DecidableEq

/-- A budget record as built by `create_budget` (src/functions/budgets.py
lines 45-51). -/
structure BudgetItem where
  userId : String
  category : String
  limit : ℚ
  createdAt : String
  updatedAt : String
deriving DecidableEq

/-- A rendered JSON number: either an integer or an exact fractional value. -/
inductive JsonNum where
  | int : ℤ → JsonNum
  | dec : ℚ → JsonNum
deriving DecidableEq

/-- Embedding of `DecimalEncoder.default` (src/functions/transactions.py lines
15-19, identical in analytics.py and budgets.py): `float(o) if o % 1 != 0 else
int(o)`.  For an exact decimal `o`, `o % 1 == 0` holds exactly when `o` is a
whole number, i.e. its reduced denominator is `1`, and then `int(o)` is its
integer value `o.num`; otherwise the (fractional) value itself is emitted. -/
def decimalEncoder (o : ℚ) : JsonNum :=
  if o.den = 1 then JsonNum.int o.num else JsonNum.dec o

/-- One step of the aggregation loop `spending[t['category']] += amount`
(src/functions/analytics.py line 130) on a `defaultdict(Decimal)` modelled as an
insertion-ordered association list: an existing key accumulates, a new key is
appended with initial value `0 + a = a`. -/
def addToCategory : List (String × ℚ) → String → ℚ → List (String × ℚ)
  | [], c, a => [(c, a)]
  | (c', v) :: rest, c, a =>
    if c' = c then (c', v + a) :: rest else (c', v) :: addToCategory rest c a

/-- Embedding of the per-category spending aggregation in `budget_status`
(src/functions/analytics.py lines 127-130): fold the transactions through the
`defaultdict` update, starting from an empty mapping. -/
def aggregate (ts : List Transaction) : List (String × ℚ) :=
  ts.foldl (fun m t => addToCategory m t.category t.amount) []

/-- Dictionary lookup on the insertion-ordered association list. -/
def lookupCat : List (String × ℚ) → String → Option ℚ
  | [], _ => none
  | (c', v) :: rest, c => if c' = c then some v else lookupCat rest c

/-- Python `sum(spending.values())`. -/
def sumValues (m : List (String × ℚ)) : ℚ := (m.map (fun q => q.2)).sum

/-- Embedding of `percentage = (current / limit * 100) if limit > 0 else
Decimal('0')` (src/functions/analytics.py line 141). -/
def percentageUsed (current limit : ℚ) : ℚ :=
  if 0 < limit then current / limit * 100 else 0

/-- One entry of the `budgetStatus` output (src/functions/analytics.py lines
143-149). -/
structure BudgetStatus where
  category : String
  limit : ℚ
  spent : ℚ
  remaining : ℚ
  percentageUsed : ℚ
deriving DecidableEq

/-- The per-budget body of the evaluation loop in `budget_status`
(src/functions/analytics.py lines 137-149): `current = spending.get(category,
Decimal('0'))`, then the status record. -/
def statusOf (spending : List (String × ℚ)) (b : BudgetItem) : BudgetStatus :=
  let current := (lookupCat spending b.category).getD 0
  { category := b.category
    limit := b.limit
    spent := current
    remaining := b.limit - current
    percentageUsed := percentageUsed current b.limit }

/-- Embedding of the `for budget in budgets: status.append(...)` loop of
`budget_status` (src/functions/analytics.py lines 136-149): one status per
budget, in input order. -/
def budget_status (budgets : List BudgetItem) (spending : List (String × ℚ)) :
    List BudgetStatus :=
  budgets.map (statusOf spending)

/-- Embedding of the current-month spend computed inside `check_budget`
(src/functions/transactions.py lines 205-220): the CategoryIndex query filtered
by `begins_with(#dt, :month)`, then `sum(item['amount'] ...)`. -/
def spentOf (txs : List Transaction) (user_id category current_month : String) : ℚ :=
  ((txs.filter (fun t =>
      t.userId == user_id && t.category == category
        && strStarts t.date current_month)).map (fun t => t.amount)).sum

/-- The budget-alert email composed at src/functions/transactions.py lines
231-245: addressee and the three values interpolated into the message body. -/
structure Notification where
  toAddr : String
  category : String
  spent : ℚ
  limit : ℚ
deriving DecidableEq

/-- Outcome of the external SES `send_email` call. -/
inductive SendOutcome where
  | success
  | failure
deriving DecidableEq

/-- Observable outcome of `check_budget`: the notifications it composed and
attempted to send, and whether an exception escapes to its caller. -/
structure CheckResult where
  attempted : List Notification
  raised : Bool
deriving DecidableEq

/-- Embedding of `check_budget` (src/functions/transactions.py lines 176-286).
The budget lookup result is passed in as `budgetLimit` (`none` models the
"no budget for this category" early return at lines 190-192).  When the
current-month spend strictly exceeds the limit (`total_spent > budget_limit`,
line 224) one notification is composed and its send attempted.  The SES call is
wrapped in `try/except` (lines 248-270), so the send outcome never changes the
result and no exception propagates: `raised` is `false` on every path. -/
def check_budget (txs : List Transaction) (user_id category : String)
    (budgetLimit : Option ℚ) (current_month user_email : String)
    (send : SendOutcome) : CheckResult :=
  match budgetLimit with
  | none => { attempted := [], raised := false }
  | some budget_limit =>
    let total_spent := spentOf txs user_id category current_month
    if budget_limit < total_spent then
      -- ses.send_email is attempted; a failure is only logged (lines 269-270)
      { attempted := [{ toAddr := user_email, category := category,
                        spent := total_spent, limit := budget_limit }],
        raised := false }
    else
      { attempted := [], raised := false }

/-- Observable outcome of `create_transaction`: the transactions table after the
write, the notifications sent during the request, and the HTTP status. -/
structure CreateResult where
  store : List Transaction
  notifications : List Notification
  statusCode : Nat
deriving DecidableEq

/-- Embedding of the success path of `create_transaction`
(src/functions/transactions.py lines 27-76): the transaction is stored
(`put_item`, line 60) and a 201 response is returned.  The `check_budget` call
at line 64 is commented out in the source, so no budget evaluation runs and no
notification is produced on this path. -/
def create_transaction (store : List Transaction) (t : Transaction) : CreateResult :=
  { store := store ++ [t], notifications := [], statusCode := 201 }

/-- The write-then-evaluate reference flow: store the transaction (line 60),
then run `check_budget` against the post-write table, as the commented call at
line 64 wires it (`check_budget(user_id, body['category'], body['amount'],
user_email)`). -/
def write_then_check (store : List Transaction) (t : Transaction)
    (budgetLimit : Option ℚ) (current_month user_email : String)
    (send : SendOutcome) : List Transaction × CheckResult :=
  let store' := store ++ [t]
  (store', check_budget store' t.userId t.category budgetLimit current_month user_email send)

/-- DynamoDB `put_item` on the budgets table: replace the record with the same
`(userId, category)` key, or append when absent. -/
def putBudget : List BudgetItem → BudgetItem → List BudgetItem
  | [], item => [item]
  | b :: rest, item =>
    if b.userId == item.userId && b.category == item.category then item :: rest
    else b :: putBudget rest item

/-- DynamoDB `get_item` on the budgets table by `(userId, category)`. -/
def getBudget : List BudgetItem → String → String → Option BudgetItem
  | [], _, _ => none
  | b :: rest, u, c =>
    if b.userId == u && b.category == c then some b else getBudget rest u c

/-- Embedding of the success path of `create_budget` (src/functions/budgets.py
lines 24-67): the item built at lines 45-51 sets BOTH `createdAt` and
`updatedAt` to the current time, and `put_item` (line 55) replaces the whole
record with the same key. -/
def create_budget (store : List BudgetItem) (user_id category : String)
    (budget_limit : ℚ) (now : String) : List BudgetItem :=
  putBudget store { userId := user_id, category := category, limit := budget_limit,
                    createdAt := now, updatedAt := now }

/-- The query-string parameters of `get_transactions` that influence the query. -/
structure QueryStringParams where
  startDate : Option String
  endDate : Option String
  category : Option String

/-- The DynamoDB query assembled by `get_transactions`: key condition on
`userId` (plus `category` via CategoryIndex when the parameter is present) and
optional date FilterExpressions. -/
structure StoreQuery where
  keyUser : String
  keyCategory : Option String
  filterStart : Option String
  filterEnd : Option String
deriving DecidableEq

/-- Embedding of the query construction in `get_transactions`
(src/functions/transactions.py lines 107-147): the category key condition is
added only when `'category' in params` (line 117), and the `date >= :start` /
`date <= :end` filter expressions are added only when `'startDate' in params`
(line 125) / `'endDate' in params` (line 137). -/
def build_query (user_id : String) (params : QueryStringParams) : StoreQuery :=
  { keyUser := user_id
    keyCategory := params.category
    filterStart := params.startDate
    filterEnd := params.endDate }

/-- Whether a stored transaction satisfies the query's key condition and filter
expressions. -/
def matchesQuery (q : StoreQuery) (t : Transaction) : Bool :=
  t.userId == q.keyUser
    && (match q.keyCategory with | some c => t.category == c | none => true)
    && (match q.filterStart with | some s => strLe s t.date | none => true)
    && (match q.filterEnd with | some e => strLe t.date e | none => true)

/-- Execute a query against the transactions table. -/
def runQuery (store : List Transaction) (q : StoreQuery) : List Transaction :=
  store.filter (matchesQuery q)

/-- Embedding of `get_transactions` (src/functions/transactions.py lines
86-166).  Lines 103-104 compute `start_date`/`end_date` defaults from the
current IST date; they are passed here as `default_start`/`default_end` and —
exactly as in the source, where they only feed the log line at 105 — they are
never consulted when building or running the query. -/
def get_transactions (store : List Transaction) (user_id : String)
    (params : QueryStringParams) (default_start default_end : String) :
    List Transaction :=
  runQuery store (build_query user_id params)

/-- Per-category total of a transaction list: the value the aggregation stores
under category `c`. -/
def catSum (ts : List Transaction) (c : String) : ℚ :=
  ((ts.filter (fun t => t.category == c)).map (fun t => t.amount)).sum

lemma sumValues_addToCategory (m : List (String × ℚ)) (c : String) (a : ℚ) :
    sumValues (addToCategory m c a) = sumValues m + a := by
  induction m with
  | nil => simp [addToCategory, sumValues]
  | cons p rest ih =>
    obtain ⟨k, v⟩ := p
    by_cases h : k = c
    · simp only [addToCategory, if_pos h, sumValues, List.map_cons, List.sum_cons]
      ring
    · simp only [addToCategory, if_neg h, sumValues, List.map_cons, List.sum_cons] at ih ⊢
      rw [ih]
      ring

lemma sumValues_foldl (ts : List Transaction) (m : List (String × ℚ)) :
    sumValues (ts.foldl (fun m t => addToCategory m t.category t.amount) m) =
      sumValues m + (ts.map (fun t => t.amount)).sum := by
  induction ts generalizing m with
  | nil => simp
  | cons t ts ih =>
    simp only [List.foldl_cons, List.map_cons, List.sum_cons]
    rw [ih, sumValues_addToCategory]
    ring

/-- C3: for every sequence of transactions, the sum over all categories of the
per-category totals produced by aggregation equals the sum of all input
transaction amounts (aggregation conserves the total). -/
theorem C3_aggregate_conserves_total (ts : List Transaction) :
    sumValues (aggregate ts) = (ts.map (fun t => t.amount)).sum := by
  have h := sumValues_foldl ts []
  simpa [aggregate, sumValues] using h

lemma lookupCat_addToCategory (m : List (String × ℚ)) (c : String) (a : ℚ)
    (c' : String) :
    lookupCat (addToCategory m c a) c' =
      if c' = c then some ((lookupCat m c').getD 0 + a) else lookupCat m c' := by
  induction m with
  | nil =>
    by_cases h : c' = c
    · subst h
      simp [addToCategory, lookupCat]
    · simp [addToCategory, lookupCat, h, Ne.symm h]
  | cons p rest ih =>
    obtain ⟨k, v⟩ := p
    by_cases hk : k = c
    · subst hk
      by_cases hc : c' = k
      · subst hc
        simp [addToCategory, lookupCat]
      · simp [addToCategory, lookupCat, hc, Ne.symm hc]
    · by_cases hc : c' = c
      · subst hc
        simp [addToCategory, lookupCat, hk, ih, Ne.symm hk]
      · by_cases hkc : k = c'
        · subst hkc
          simp [addToCategory, lookupCat, hk, ih, hc]
        · simp [addToCategory, lookupCat, hk, ih, hc, Ne.symm hkc]

lemma lookupCat_foldl (ts : List Transaction) (m : List (String × ℚ)) (c : String) :
    lookupCat (ts.foldl (fun m t => addToCategory m t.category t.amount) m) c =
      match lookupCat m c with
      | some v => some (v + catSum ts c)
      | none =>
        if c ∈ ts.map (fun t => t.category) then some (catSum ts c) else none := by
  induction ts generalizing m with
  | nil => cases h : lookupCat m c <;> simp [catSum, h]
  | cons t ts ih =>
    simp only [List.foldl_cons]
    rw [ih, lookupCat_addToCategory]
    by_cases hc : c = t.category
    · subst hc
      cases h : lookupCat m t.category <;>
        simp [h, catSum, List.filter_cons, add_assoc]
    · have hc' : ¬ (t.category == c) = true := by
        simpa [beq_iff_eq] using fun hh => hc hh.symm
      cases h : lookupCat m c <;>
        simp [h, catSum, List.filter_cons, hc, hc']

lemma lookupCat_aggregate (ts : List Transaction) (c : String) :
    lookupCat (aggregate ts) c =
      if c ∈ ts.map (fun t => t.category) then some (catSum ts c) else none := by
  have h := lookupCat_foldl ts [] c
  simpa [aggregate, lookupCat] using h

/-- C5: aggregation is order-independent — permuting the input transactions
yields a mapping with identical per-category totals (identical as a mapping:
the same lookup result for every category). -/
theorem C5_aggregate_perm_invariant (ts ts' : List Transaction)
    (h : ts.Perm ts') (c : String) :
    lookupCat (aggregate ts) c = lookupCat (aggregate ts') c := by
  rw [lookupCat_aggregate, lookupCat_aggregate]
  have hmem : (c ∈ ts.map (fun t => t.category)) ↔
      (c ∈ ts'.map (fun t => t.category)) :=
    (h.map (fun t => t.category)).mem_iff
  have hsum : catSum ts c = catSum ts' c := by
    unfold catSum
    exact ((h.filter (fun t => t.category == c)).map (fun t => t.amount)).sum_eq
  by_cases hm : c ∈ ts.map (fun t => t.category)
  · rw [if_pos hm, if_pos (hmem.mp hm), hsum]
  · rw [if_neg hm, if_neg (fun hh => hm (hmem.mpr hh))]

/-- Witness for C5: swapping two concrete transactions leaves the aggregated
total for "food" unchanged. -/
theorem C5_witness :
    lookupCat (aggregate
        [⟨"u1", "t1", 40, "food", "lunch", "2024-06-01", "ts1", "card"⟩,
         ⟨"u1", "t2", 30, "food", "dinner", "2024-06-02", "ts2", "cash"⟩])
      "food" =
    lookupCat (aggregate
        [⟨"u1", "t2", 30, "food", "dinner", "2024-06-02", "ts2", "cash"⟩,
         ⟨"u1", "t1", 40, "food", "lunch", "2024-06-01", "ts1", "card"⟩])
      "food" :=
  C5_aggregate_perm_invariant _ _
    (List.Perm.swap
      ⟨"u1", "t2", 30, "food", "dinner", "2024-06-02", "ts2", "cash"⟩
      ⟨"u1", "t1", 40, "food", "lunch", "2024-06-01", "ts1", "card"⟩ [])
    "food"

/-- C4: for a budget with limit 0 the computed percentage is 0 for every spent
value — the division branch is guarded by `limit > 0` and is never taken, so
evaluation cannot divide by zero. -/
theorem C4_zero_limit_percentage (spent : ℚ) : percentageUsed spent 0 = 0 := by
  simp [percentageUsed]

/-- C9: the Decimal encoder renders a whole-number value as an integer and a
value with a fractional part as the exact fractional value; in particular 12.00
renders as the integer 12 and 12.50 renders as 12.5. -/
theorem C9_decimal_rendering (d : ℚ) :
    decimalEncoder 12 = JsonNum.int 12 ∧
    decimalEncoder (25 / 2) = JsonNum.dec (25 / 2) ∧
    ((∃ n : ℤ, d = (n : ℚ)) → decimalEncoder d = JsonNum.int d.num) ∧
    ((∀ n : ℤ, d ≠ (n : ℚ)) → decimalEncoder d = JsonNum.dec d) := by
  have hint : ∀ e : ℚ, (∃ n : ℤ, e = (n : ℚ)) → decimalEncoder e = JsonNum.int e.num := by
    rintro e ⟨n, rfl⟩
    simp [decimalEncoder, Rat.den_intCast]
  have hfrac : ∀ e : ℚ, (∀ n : ℤ, e ≠ (n : ℚ)) → decimalEncoder e = JsonNum.dec e := by
    intro e hno
    have hden : e.den ≠ 1 := fun h1 => hno e.num ((Rat.den_eq_one_iff e).mp h1).symm
    simp [decimalEncoder, hden]
  refine ⟨?_, ?_, hint d, hfrac d⟩
  · have h12 : decimalEncoder 12 = JsonNum.int (12 : ℚ).num := hint 12 ⟨12, by norm_num⟩
    rw [h12]
    norm_num
  · refine hfrac (25 / 2) ?_
    intro n hn
    have h2 : ((n : ℚ)) * 2 = 25 := by rw [← hn]; norm_num
    have h3 : (n : ℤ) * 2 = 25 := by exact_mod_cast h2
    omega

/-- Witness for C9: the whole-number branch at the concrete value 12. -/
theorem C9_witness : decimalEncoder 12 = JsonNum.int (12 : ℚ).num :=
  (C9_decimal_rendering 12).2.2.1 ⟨12, by norm_num⟩

/-- C6: budget evaluation produces exactly one status per input budget, in input
order; a budget whose category has no recorded spending gets spent 0, remaining
equal to its limit and percentage 0; and every output entry corresponds to an
input budget (categories with spending but no budget contribute nothing). -/
theorem C6_evaluate_shape (budgets : List BudgetItem) (spending : List (String × ℚ)) :
    (budget_status budgets spending).length = budgets.length ∧
    (budget_status budgets spending).map (fun s => s.category) =
      budgets.map (fun b => b.category) ∧
    (∀ b ∈ budgets, lookupCat spending b.category = none →
      statusOf spending b =
        { category := b.category, limit := b.limit, spent := 0,
          remaining := b.limit, percentageUsed := 0 }) ∧
    (∀ s ∈ budget_status budgets spending, ∃ b ∈ budgets, s.category = b.category) := by
  refine ⟨?_, ?_, ?_, ?_⟩
  · simp [budget_status]
  · simp [budget_status, List.map_map]
    intro a _
    rfl
  · intro b _ hnone
    simp [statusOf, hnone, percentageUsed]
  · intro s hs
    simp only [budget_status, List.mem_map] at hs
    obtain ⟨b, hb, rfl⟩ := hs
    exact ⟨b, hb, rfl⟩

/-- Witness for C6: one food budget and spending only in another category. -/
theorem C6_witness :
    (budget_status [⟨"u1", "food", 50, "b1", "b1"⟩] [("transport", 20)]).map
        (fun s => s.category) = ["food"] ∧
    statusOf [("transport", 20)] ⟨"u1", "food", 50, "b1", "b1"⟩ =
      { category := "food", limit := 50, spent := 0, remaining := 50,
        percentageUsed := 0 } := by
  have h := C6_evaluate_shape [⟨"u1", "food", 50, "b1", "b1"⟩] [("transport", 20)]
  refine ⟨?_, ?_⟩
  · rw [h.2.1]
    rfl
  · exact h.2.2.1 _ (by simp) (by decide)

/-- C2 as stated is false at spent = limit = 0: a budget with limit 0 and no
recorded spending has spent equal to its limit, yet percentageUsed is 0, not
100 (the zero-limit guard takes precedence over the division). -/
theorem C2_counterexample :
    (statusOf [] ⟨"u1", "food", 0, "b1", "b1"⟩).spent =
      (statusOf [] ⟨"u1", "food", 0, "b1", "b1"⟩).limit ∧
    (statusOf [] ⟨"u1", "food", 0, "b1", "b1"⟩).percentageUsed ≠ 100 := by
  constructor
  · norm_num [statusOf, lookupCat]
  · norm_num [statusOf, lookupCat, percentageUsed]

/-- C2 (amended): the dispatch branch fires iff the raw spent total strictly
exceeds the raw limit; when spent equals the limit the branch is not taken, and
the percentage equals 100 provided the limit is positive (for limit 0 the
percentage is 0 even though spent equals the limit). -/
theorem C2_amended (txs : List Transaction) (uid cat month email : String)
    (lim : ℚ) (send : SendOutcome) (h : spentOf txs uid cat month = lim) :
    (check_budget txs uid cat (some lim) month email send).attempted = [] ∧
    (0 < lim → percentageUsed (spentOf txs uid cat month) lim = 100) ∧
    (∀ lim' : ℚ,
      ((check_budget txs uid cat (some lim') month email send).attempted ≠ [] ↔
        lim' < spentOf txs uid cat month)) := by
  refine ⟨?_, ?_, ?_⟩
  · simp [check_budget, h]
  · intro hpos
    rw [h]
    simp only [percentageUsed, if_pos hpos]
    rw [div_self hpos.ne']
    norm_num
  · intro lim'
    by_cases hlt : lim' < spentOf txs uid cat month
    · simp [check_budget, hlt]
    · simp [check_budget, hlt]

/-- Witness for C2: one 50-unit food transaction against a 50-unit limit — the
dispatch list is empty and the percentage is exactly 100. -/
theorem C2_witness :
    (check_budget [⟨"u1", "t1", 50, "food", "d", "2024-06-10", "ts", "card"⟩]
        "u1" "food" (some 50) "2024-06" "e@x" SendOutcome.success).attempted = [] ∧
    (0 < (50 : ℚ) →
      percentageUsed
        (spentOf [⟨"u1", "t1", 50, "food", "d", "2024-06-10", "ts", "card"⟩]
          "u1" "food" "2024-06") 50 = 100) ∧
    (∀ lim' : ℚ,
      ((check_budget [⟨"u1", "t1", 50, "food", "d", "2024-06-10", "ts", "card"⟩]
          "u1" "food" (some lim') "2024-06" "e@x" SendOutcome.success).attempted ≠ [] ↔
        lim' < spentOf [⟨"u1", "t1", 50, "food", "d", "2024-06-10", "ts", "card"⟩]
          "u1" "food" "2024-06")) :=
  C2_amended [⟨"u1", "t1", 50, "food", "d", "2024-06-10", "ts", "card"⟩]
    "u1" "food" "2024-06" "e@x" 50 SendOutcome.success
    (by simp [spentOf, strStarts, charsStart])

lemma getBudget_putBudget (store : List BudgetItem) (item : BudgetItem) :
    getBudget (putBudget store item) item.userId item.category = some item := by
  induction store with
  | nil => simp [putBudget, getBudget]
  | cons b rest ih =>
    by_cases hb : (b.userId == item.userId && b.category == item.category) = true
    · simp [putBudget, getBudget, hb]
    · simp [putBudget, getBudget, hb, ih]

/-- C7 as stated is false: overwriting the "u1"/"food" budget replaces the whole
record, so createdAt after the second upsert is the second write's timestamp,
not the first creation's. -/
theorem C7_counterexample :
    (getBudget
        (create_budget (create_budget [] "u1" "food" 50 "2024-01-15T10:00:00+0530")
          "u1" "food" 60 "2024-03-02T09:00:00+0530")
        "u1" "food").map (fun b => b.createdAt) =
      some "2024-03-02T09:00:00+0530" ∧
    "2024-03-02T09:00:00+0530" ≠ "2024-01-15T10:00:00+0530" := by
  constructor
  · decide
  · decide

/-- C7 (amended): upserting a budget overwrites the record and sets BOTH
createdAt and updatedAt to the write's current time — createdAt is not
preserved from the first creation. -/
theorem C7_amended (store : List BudgetItem) (u c : String) (l : ℚ) (now : String) :
    getBudget (create_budget store u c l now) u c =
      some { userId := u, category := c, limit := l, createdAt := now,
             updatedAt := now } := by
  have h := getBudget_putBudget store
    { userId := u, category := c, limit := l, createdAt := now, updatedAt := now }
  simpa [create_budget] using h

/-- C8: a notification-send failure during budget-alert dispatch is absorbed —
the flow raises nothing to its caller, the stored transactions (including the
triggering write) are untouched, and the outcome is identical to a successful
send. -/
theorem C8_notification_failure_absorbed (store : List Transaction)
    (t : Transaction) (blim : Option ℚ) (month email : String) :
    (write_then_check store t blim month email SendOutcome.failure).1 =
      store ++ [t] ∧
    (write_then_check store t blim month email SendOutcome.failure).2.raised =
      false ∧
    (write_then_check store t blim month email SendOutcome.failure).2 =
      (write_then_check store t blim month email SendOutcome.success).2 := by
  refine ⟨rfl, ?_, rfl⟩
  cases blim with
  | none => rfl
  | some bl =>
    simp only [write_then_check, check_budget]
    split <;> rfl

/-- C10: with neither startDate nor endDate supplied, the executed query applies
no date filter — the result is identical whatever default dates were computed,
and every stored transaction of the user (passing the category condition, when
present) is returned regardless of its date. -/
theorem C10_no_default_date_filter (store : List Transaction) (uid : String)
    (params : QueryStringParams) (d1 d2 d1' d2' : String)
    (hs : params.startDate = none) (he : params.endDate = none) :
    get_transactions store uid params d1 d2 =
      get_transactions store uid params d1' d2' ∧
    ∀ t ∈ store, t.userId = uid →
      (∀ c, params.category = some c → t.category = c) →
      t ∈ get_transactions store uid params d1 d2 := by
  refine ⟨rfl, ?_⟩
  intro t ht huid hcat
  have hmatch : matchesQuery (build_query uid params) t = true := by
    cases hc : params.category with
    | none => simp [matchesQuery, build_query, hs, he, hc, huid]
    | some c => simp [matchesQuery, build_query, hs, he, hc, huid, hcat c hc]
  simp only [get_transactions, runQuery]
  exact List.mem_filter.mpr ⟨ht, hmatch⟩

/-- Witness for C10: a 2019-dated transaction is returned under the
current-month default dates, and changing the defaults changes nothing. -/
theorem C10_witness :
    get_transactions [⟨"u1", "t9", 15, "food", "old", "2019-01-01", "ts", "cash"⟩]
        "u1" ⟨none, none, none⟩ "2025-10-01" "2025-10-12" =
      get_transactions [⟨"u1", "t9", 15, "food", "old", "2019-01-01", "ts", "cash"⟩]
        "u1" ⟨none, none, none⟩ "1900-01-01" "1900-01-02" ∧
    (⟨"u1", "t9", 15, "food", "old", "2019-01-01", "ts", "cash"⟩ : Transaction) ∈
      get_transactions [⟨"u1", "t9", 15, "food", "old", "2019-01-01", "ts", "cash"⟩]
        "u1" ⟨none, none, none⟩ "2025-10-01" "2025-10-12" := by
  have h := C10_no_default_date_filter
    [⟨"u1", "t9", 15, "food", "old", "2019-01-01", "ts", "cash"⟩] "u1"
    ⟨none, none, none⟩ "2025-10-01" "2025-10-12" "1900-01-01" "1900-01-02" rfl rfl
  refine ⟨h.1, h.2 _ (by simp) rfl ?_⟩
  intro c hc
  cases hc

/-- C1: in the code as written the claim fails — the `check_budget` call after
the transaction write (transactions.py line 64) is commented out, so the write
path emits no notification even when the post-write current-month spend (100)
strictly exceeds the configured limit (50), a state in which `check_budget`,
had it been invoked as the reference flow specifies, would have composed and
sent exactly one notification carrying the category, spent total and limit. -/
theorem C1_dispatch_not_invoked :
    (create_transaction []
        ⟨"u1", "t1", 100, "food", "lunch", "2024-06-15",
          "2024-06-15T12:00:00+0530", "card"⟩).notifications = [] ∧
    (check_budget
        (create_transaction []
          ⟨"u1", "t1", 100, "food", "lunch", "2024-06-15",
            "2024-06-15T12:00:00+0530", "card"⟩).store
        "u1" "food" (some 50) "2024-06" "u1@example.com"
        SendOutcome.success).attempted =
      [{ toAddr := "u1@example.com", category := "food", spent := 100,
         limit := 50 }] := by
  constructor
  · rfl
  · have hsp :
        spentOf
          (create_transaction []
            ⟨"u1", "t1", 100, "food", "lunch", "2024-06-15",
              "2024-06-15T12:00:00+0530", "card"⟩).store
          "u1" "food" "2024-06" = 100 := by
      simp [create_transaction, spentOf, strStarts, charsStart]
    norm_num [check_budget, hsp]

end MoneyMinder
